import Mathlib

/-!
Shallow embedding of the SourceIO Blender add-on's host-integration layer:
the `VRGeneric` shader-construction routine
(`blender_bindings/material_loader/shaders/source2_shaders/vr_generic.py`)
and the Source 1 v49 model-import routines
(`blender_bindings/source1/mdl/v49/import_mdl.py`).

Python floats are embedded as exact rationals (`ℚ`); integer shader flags as
`Int` with Python truthiness (nonzero = true); Python strings as `String`.
-/

namespace SourceIO

/-- A 4-component vector, embedding the `g_vColorTint` numpy array. -/
structure Vec4 where
  x : ℚ
  y : ℚ
  z : ℚ
  w : ℚ
deriving DecidableEq

/-- The material parameters `VRGeneric.create_nodes` reads, already resolved
through `get_vector` / `get_int` with their defaults applied. -/
structure VRGenericParams where
  /-- `g_vColorTint` (default `np.ones(4)`). -/
  g_vColorTint : Vec4
  /-- `F_ALPHA_TEST` (default 0). -/
  F_ALPHA_TEST : Int
  /-- `F_METALNESS_TEXTURE` (default 0). -/
  F_METALNESS_TEXTURE : Int
  /-- `F_TRANSLUCENT` (default 0). -/
  F_TRANSLUCENT : Int
deriving DecidableEq

/-- Where the Principled BSDF's `Base Color` input is connected from. -/
inductive BaseColorSource
  /-- `albedo_node.outputs[Color]` connected directly. -/
  | albedoDirect
  /-- through a `ShaderNodeMixRGB` node with blend_type MULTIPLY. -/
  | mixNode
deriving DecidableEq

/-- Where `albedo_node.outputs[Alpha]` is connected to. -/
inductive AlphaWiring
  /-- `shader.inputs[Alpha]`. -/
  | toAlpha
  /-- `shader.inputs[Metallic]`. -/
  | toMetallic
  /-- not connected anywhere. -/
  | notWired
deriving DecidableEq

/-- Observable outcome of `VRGeneric.create_nodes` for the aspects the spec
talks about: whether a multiply mix node was inserted and with which
`Color2` value, where base color and albedo alpha are wired, and whether the
host material's blend/shadow method was mutated to HASHED. -/
structure VRGenericResult where
  mixColor2 : Option Vec4
  baseColor : BaseColorSource
  alphaWiring : AlphaWiring
  blendMethodSet : Bool
deriving DecidableEq

/-- `sum(color)` over the four components. -/
def vecSum (c : Vec4) : ℚ := c.x + c.y + c.z + c.w

/-- Lines 82–85 of `vr_generic.py`: the value assigned to
`color_mix.inputs[Color2].default_value`: the tint, divided by 255 when
`sum(color) > 3`. -/
def scaledTint (c : Vec4) : Vec4 :=
  if vecSum c > 3 then ⟨c.x / 255, c.y / 255, c.z / 255, c.w / 255⟩ else c

/-- `VRGeneric.create_nodes` (lines 63–104 of `vr_generic.py`), restricted to
its observable node-graph decisions.  The mix node is inserted under the
source condition `self.color[0] != 1.0 and self.color[1] != 1.0 and
self.color[2] != 1.0`; alpha is wired to `Alpha` when
`self.translucent or self.alpha_test` (also setting `blend_method` and
`shadow_method` to HASHED), else to `Metallic` when `self.metalness`. -/
def create_nodes (p : VRGenericParams) : VRGenericResult :=
  let c := p.g_vColorTint
  let mixInserted : Bool := decide (c.x ≠ 1 ∧ c.y ≠ 1 ∧ c.z ≠ 1)
  let translucentOrAlphaTest : Bool :=
    decide (p.F_TRANSLUCENT ≠ 0 ∨ p.F_ALPHA_TEST ≠ 0)
  { mixColor2 := if mixInserted then some (scaledTint c) else none
    baseColor := if mixInserted then .mixNode else .albedoDirect
    alphaWiring :=
      if translucentOrAlphaTest then .toAlpha
      else if p.F_METALNESS_TEXTURE ≠ 0 then .toMetallic
      else .notWired
    blendMethodSet := translucentOrAlphaTest }

/-- Pure white `(1,1,1,1)`, the default tint. -/
def pureWhite : Vec4 := ⟨1, 1, 1, 1⟩

/-! ### Flex balance blending (`import_mdl.py`, lines 231–240)

`model_vertices` is an N×3 numpy array of vertex positions; `balance` is the
per-vertex weight applied to the flex delta for the primary shape key and
`1 - balance` the weight for the partner shape key. -/

/-- A 3-component vector, one row of the `model_vertices` array. -/
structure Vec3 where
  x : ℚ
  y : ℚ
  z : ℚ
deriving DecidableEq, Inhabited

/-- The three scalar entries of one vertex row. -/
def vec3Coords (v : Vec3) : List ℚ := [v.x, v.y, v.z]

/-- Every scalar entry of the N×3 array, in row order; numpy's axis-free
`.max()` / `.min()` reduce over these (all three coordinates of every
vertex, not only X). -/
def allCoords (vs : List Vec3) : List ℚ := (vs.map vec3Coords).flatten

/-- `ndarray.max()`: maximum over all entries (numpy raises on an empty
array; the `[]` case is an arbitrary total-function default). -/
def npMax : List ℚ → ℚ
  | [] => 0
  | x :: xs => xs.foldl max x

/-- `ndarray.min()`: minimum over all entries. -/
def npMin : List ℚ → ℚ
  | [] => 0
  | x :: xs => xs.foldl min x

/-- `np.clip(x, lo, hi)`. -/
def npClip (x lo hi : ℚ) : ℚ := min (max x lo) hi

/-- Line 232: `balance_width = (model_vertices.max() - model_vertices.min())
* (1 - (99.3 / 100))`.  Both reductions are over the whole N×3 array. -/
def balance_width (vs : List Vec3) : ℚ :=
  (npMax (allCoords vs) - npMin (allCoords vs)) * (1 - 993 / 10 / 100)

/-- Lines 231–233: the per-vertex primary blend weight, as a function of the
vertex's X coordinate `x`:
`np.clip((-balance / balance_width / 2) + 0.5, 0, 1)` where `balance` starts
as `model_vertices[:, 0]`. -/
def balance (vs : List Vec3) (x : ℚ) : ℚ :=
  npClip (-x / balance_width vs / 2 + 1 / 2) 0 1

/-- Line 238: `p_balance = 1 - balance`, the partner shape key's weight. -/
def p_balance (vs : List Vec3) (x : ℚ) : ℚ := 1 - balance vs x

/-- Lines 235 and 239: one vertex of a flex shape key:
`flex_delta * weight + model_vertices`. -/
def flexVertex (delta mv : Vec3) (w : ℚ) : Vec3 :=
  ⟨delta.x * w + mv.x, delta.y * w + mv.y, delta.z * w + mv.z⟩

/-! ### Host object names (`import_mdl.py`, lines 61–62, 174–178, 464–467) -/

/-- Python `s[-n:]`: the last `n` characters of `s`, or all of `s` when it is
shorter than `n`. -/
def pySliceLast (n : Nat) (s : String) : String :=
  String.mk (s.data.drop (s.data.length - n))

/-- One bone of `mdl.bones`. -/
structure SrcBone where
  name : String
  parent_bone_index : Int
deriving DecidableEq, Inhabited

/-- Line 62: the name under which a bone is stored in the armature:
`bone.name[-63:]`. -/
def boneStoredName (b : SrcBone) : String := pySliceLast 63 b.name

/-- Lines 174–178 and 464–467: the host material name for a source material
`name`: `mat_name[-63:]`, or, when unique material names are requested,
`f"{stem}_{mat_name[-63:]}"[-63:]` where `stem` is the asset's base name. -/
def matName (unique_material_names : Bool) (stem name : String) : String :=
  if unique_material_names then
    pySliceLast 63 (stem ++ "_" ++ pySliceLast 63 name)
  else
    pySliceLast 63 name

/-! ### Model import (`import_mdl.py`, lines 87–252) -/

/-- One vertex row of the per-LOD `vvd.lod_data` structured array. -/
structure SrcVertex where
  vertex : Vec3
  normal : Vec3
  uv : ℚ × ℚ
  bone_id : List Nat
  weight : List ℚ
deriving DecidableEq, Inhabited

/-- Modelled from the spec: `get_slice` (imported from `..common`, whose file
is not under src/) selects a sub-model's contiguous
`vertex_offset .. vertex_offset + vertex_count` range of a per-LOD array
(spec §3: per-LOD arrays; §4.2: one LOD-selected vertex buffer per
sub-model). -/
def get_slice (data : List α) (offset count : Nat) : List α :=
  (data.drop offset).take count

/-- Numpy fancy indexing `data[idx]`: a fresh array gathering `data` at each
index.  The source indices are in range; an out-of-range index yields
`default` to keep the function total. -/
def npGather [Inhabited α] (data : List α) (idx : List Nat) : List α :=
  idx.map fun i => data.getD i default

/-- Lines 188 and 197: the in-place flip `uvs[:, 1] = 1 - uvs[:, 1]` on an
N×2 UV array. -/
def flipV (uvs : List (ℚ × ℚ)) : List (ℚ × ℚ) :=
  uvs.map fun p => (p.1, 1 - p.2)

/-- Lines 186–189: the per-loop data written to the primary UV layer:
`uvs[vertex_indices]` after the V flip, where `uvs = vertices['uv']` of the
gathered sub-model vertices. -/
def primaryUVLayer (vertices : List SrcVertex) (vertex_indices : List Nat) :
    List (ℚ × ℚ) :=
  npGather (flipV (vertices.map SrcVertex.uv)) vertex_indices

/-- Lines 191–198: the per-loop data for one extra UV layer: the extra array
is sliced to the sub-model, gathered through `vtx_vertices`, V-flipped, and
gathered through `vertex_indices`. -/
def extraUVLayer (extra : List (ℚ × ℚ)) (vertex_offset vertex_count : Nat)
    (vtx_vertices vertex_indices : List Nat) : List (ℚ × ℚ) :=
  npGather (flipV (npGather (get_slice extra vertex_offset vertex_count)
    vtx_vertices)) vertex_indices

/-- Lines 203–207 for one vertex `n`: each `(bone_index, weight)` pair of the
vertex with `weight > 0` contributes one `add([n], weight, 'REPLACE')` call
on the group named after `mdl.bones[bone_index]`, recorded as
`(bone name, n, weight)`. -/
def vertexWeightEntries (bones : List SrcBone) (n : Nat) (v : SrcVertex) :
    List (String × Nat × ℚ) :=
  (v.bone_id.zip v.weight).filterMap fun bw =>
    if 0 < bw.2 then some ((bones.getD bw.1 default).name, n, bw.2) else none

/-- Lines 200–207: every weight-group addition performed for one sub-model's
gathered vertex list. -/
def weightAssignments (bones : List SrcBone) (vertices : List SrcVertex) :
    List (String × Nat × ℚ) :=
  (vertices.enum.map fun nv => vertexWeightEntries bones nv.1 nv.2).flatten

/-- The MDL header fields `import_model` reads. -/
structure MdlHeader where
  flags : Nat
  name : String
deriving DecidableEq

/-- Modelled from the spec: the `StudioHDRFlags.STATIC_PROP` bit
(`library/source1/mdl/structs/header.py` is not under src/).  The spec
(§4.2, §8) only needs that it is one fixed header flag bit; the Source
engine value is bit 4. -/
def STATIC_PROP : Nat := 16

/-- Line 104: `static_prop = mdl.header.flags & StudioHDRFlags.STATIC_PROP
!= 0`. -/
def static_prop (h : MdlHeader) : Bool := h.flags &&& STATIC_PROP != 0

/-- One `(vtx_model, model)` pair of the body-part loops (lines 114–115),
with the index data produced by the external `merge_meshes` collaborator
treated as opaque input: `vtx_vertices` remaps sub-model vertices and
`vertex_indices` is the host mesh's per-loop vertex index array
(lines 183–184). -/
structure SubModelInput where
  vertex_offset : Nat
  vertex_count : Nat
  vtx_vertices : List Nat
  vertex_indices : List Nat
deriving DecidableEq

/-- The observable per-sub-model outcome for the claims: whether an armature
modifier was added, the vertex groups created (line 201 calls
`vertex_groups.new` once per bone), every weight addition, and the UV
layers written. -/
structure SubModelResult where
  armatureModifier : Bool
  vertexGroups : List String
  weights : List (String × Nat × ℚ)
  primaryUV : List (ℚ × ℚ)
  extraUV : List (List (ℚ × ℚ))
deriving DecidableEq

/-- Lines 145–207 for one sub-model (the `re_use_meshes=False` path; geometry
construction calls not touched by the claims are omitted).  The vertex
groups and weights are created only when the model is not a static prop. -/
def processModel (sp : Bool) (bones : List SrcBone)
    (allVertices : List SrcVertex) (extraData : List (List (ℚ × ℚ)))
    (m : SubModelInput) : SubModelResult :=
  let vertices :=
    npGather (get_slice allVertices m.vertex_offset m.vertex_count)
      m.vtx_vertices
  { armatureModifier := !sp
    vertexGroups := if sp then [] else bones.map SrcBone.name
    weights := if sp then [] else weightAssignments bones vertices
    primaryUV := primaryUVLayer vertices m.vertex_indices
    extraUV := extraData.map fun e =>
      extraUVLayer e m.vertex_offset m.vertex_count m.vtx_vertices
        m.vertex_indices }

/-- What `import_model` observably builds for the claims. -/
structure ImportResult where
  armatureCreated : Bool
  meshes : List SubModelResult
deriving DecidableEq

/-- `import_model` (lines 87–252) restricted to the observable decisions the
claims concern: an armature is created iff the header lacks the static-prop
flag (lines 110–112), and each sub-model with nonzero `vertex_count` is
processed (line 117 skips empty ones). -/
def import_model (header : MdlHeader) (bones : List SrcBone)
    (allVertices : List SrcVertex) (extraData : List (List (ℚ × ℚ)))
    (models : List SubModelInput) : ImportResult :=
  let sp := static_prop header
  { armatureCreated := !sp
    meshes := (models.filter fun m => m.vertex_count != 0).map
      (processModel sp bones allVertices extraData) }

/-! ### Material import (`import_mdl.py`, lines 460–491) -/

/-- What one iteration of the `import_materials` loop does for one
material. -/
inductive MaterialImportAction where
  /-- lines 473–476: log the info message and `continue`. -/
  | skipAlreadyLoaded (logInfo : String)
  /-- lines 482–491: construct a `Source1MaterialLoader` for the resolved
  path and call `create_material`. -/
  | load (materialPath : String)
  /-- no resolvable material path: fall through performing nothing. -/
  | noAction
deriving DecidableEq

/-- The host-side state read by lines 473–474: `bpy.data.materials` as a
name-keyed association with each material's `source1_loaded` custom
property (`none` = no material of that name exists). -/
def lookupHostMaterial (host : List (String × Bool)) (name : String) :
    Option Bool :=
  (host.find? fun p => p.1 == name).map (fun p => p.2)

/-- One iteration of `import_materials` (lines 462–491) for one material,
given the derived `mat_name` and the path resolved by the external
`ContentManager` collaborator (`none` when no path is found): an existing
host material flagged `source1_loaded` is skipped with an info log before
any other work. -/
def importOneMaterial (host : List (String × Bool)) (mat_name : String)
    (material_path : Option String) : MaterialImportAction :=
  match lookupHostMaterial host mat_name with
  | some true =>
    .skipAlreadyLoaded
      ("Skipping loading of " ++ mat_name ++ " as it already loaded")
  | _ =>
    match material_path with
    | some p => .load p
    | none => .noAction

/-- The host mutations each action performs: the skip path performs none, so
re-invoking import on an already-loaded material is a no-op. -/
def actionMutations : MaterialImportAction → List String
  | .skipAlreadyLoaded _ => []
  | .load p => ["create_material " ++ p]
  | .noAction => []

/-! ### Flex driver generation (`import_mdl.py`, lines 255–434) -/

/-- Python's substring test `sub in s`: `sub` occurs contiguously in `s`. -/
def pyContains (s sub : String) : Bool := decide (sub.data <:+: s.data)

/-- Helper for `pySplitChar`: walk the characters, cutting at each
separator; `acc` holds the current piece reversed. -/
def splitCharAux (sep : Char) : List Char → List Char → List String
  | [], acc => [String.mk acc.reverse]
  | c :: rest, acc =>
    if c = sep then String.mk acc.reverse :: splitCharAux sep rest []
    else splitCharAux sep rest (c :: acc)

/-- Python `s.split(sep)` for a single-character separator: the pieces
between occurrences of `sep` (adjacent separators yield empty pieces, and
the result is never empty). -/
def pySplitChar (sep : Char) (s : String) : List String :=
  splitCharAux sep s.data []

/-- The fetch-kind tags handled by the controller-fetch branch (line 361):
`inp[1] in ('fetch1', '2WAY1', '2WAY0', 'NWAY', 'DUE')`. -/
def controllerTags : List String := ["fetch1", "2WAY1", "2WAY0", "NWAY", "DUE"]

/-- A fetch-kind tag for which some branch of lines 361–373 emits a
definition (everything else reaches the `raise NotImplementedError` on
line 375). -/
def supportedFetchKind (t : String) : Bool :=
  controllerTags.contains t || t == "fetch2"

/-- Lines 359–375 for one expression input `(input_name, tag)`: the
input-definition line emitted, or the `NotImplementedError` message for an
unsupported tag. -/
def inputDefinition (inp : String × String) : Except String String :=
  if controllerTags.contains inp.2 then
    .ok (if pyContains inp.1 "left_" then
      inp.1.replace " " "_" ++ " = obj_data.flex_controllers[\"" ++
        inp.1.replace "left_" "" ++ "\"].value_left"
    else if pyContains inp.1 "right_" then
      inp.1.replace " " "_" ++ " = obj_data.flex_controllers[\"" ++
        inp.1.replace "right_" "" ++ "\"].value_right"
    else
      inp.1.replace " " "_" ++ " = obj_data.flex_controllers[\"" ++
        inp.1 ++ "\"].value")
  else if inp.2 == "fetch2" then
    .ok (inp.1.replace " " "_" ++ " = obj_data.shape_keys.key_blocks[\"" ++
      inp.1 ++ "\"].value")
  else
    .error ("\"" ++ inp.2 ++ "\" is not supported")

/-- The `for inp in inputs` loop of lines 358–375: emit one definition per
input in order, raising at the first unsupported tag. -/
def inputDefinitions : List (String × String) → Except String (List String)
  | [] => .ok []
  | inp :: rest =>
    match inputDefinition inp with
    | .error e => .error e
    | .ok d =>
      match inputDefinitions rest with
      | .error e => .error e
      | .ok ds => .ok (d :: ds)

/-- The expression values produced by `_parse_simple_flex`
(`flex_expressions` classes from the library outside src/, used here only as
inert tree nodes). -/
inductive FlexExpr where
  | fetchController (name : String)
  | combo (args : List FlexExpr)

/-- Lines 263–267: `_parse_simple_flex`: split the missing flex name on `_`;
if every piece is a registered flex controller, return a `Combo` of one
controller fetch per piece together with the `(piece, 'fetch2')` input
tuples; otherwise `None`. -/
def parse_simple_flex (controllers : List String)
    (missing_flex_name : String) :
    Option (FlexExpr × List (String × String)) :=
  let flexes := pySplitChar '_' missing_flex_name
  if flexes.all (fun f => controllers.contains f) then
    some (.combo (flexes.map .fetchController),
          flexes.map fun f => (f, "fetch2"))
  else none

/-- A Python value in a joined sequence: a string (as the main loop's
`input_definitions` holds) or a `(name, tag)` tuple (as
`_parse_simple_flex`'s `inputs` holds). -/
inductive PyVal where
  | str (s : String)
  | tup (a b : String)
deriving DecidableEq

/-- Python `sep.join(seq)`: concatenation with the separator for an
all-string sequence, and a `TypeError` when any element is not a string. -/
def pyStrJoin (sep : String) : List PyVal → Except String String
  | [] => .ok ""
  | .str s :: rest =>
    match rest with
    | [] => .ok s
    | _ :: _ =>
      match pyStrJoin sep rest with
      | .ok r => .ok (s ++ sep ++ r)
      | .error e => .error e
  | .tup _ _ :: _ =>
    .error "TypeError: sequence item: expected str instance, tuple found"

/-- The outcome of the missing-rule fallback for one shape key. -/
inductive FallbackOutcome where
  /-- the first fallback's driver template body (lines 410–417), whose
  definitions block is `st.join(inputs)`. -/
  | comboDriver (definitionsBlock : String)
  /-- the second fallback (lines 396–408): a new controller with
  `value_min`/`value_max` plus the identity driver text. -/
  | identityController (name : String) (value_min value_max : ℚ)
      (driverText : String)
deriving DecidableEq

/-- Lines 392–417 for one shape key whose name has no compiled rule: after
the warning, `_parse_simple_flex` is tried; on success the driver template
joins the raw `inputs` tuples with `st.join` (line 412); on failure a
controller with range 0–1 is registered and an identity driver returning its
value is emitted (lines 397–407). -/
def missingRuleFallback (controllers : List String) (flex_name : String) :
    Except String FallbackOutcome :=
  match parse_simple_flex controllers flex_name with
  | some (_expr, inputs) =>
    match pyStrJoin "\n    " (inputs.map fun p => .tup p.1 p.2) with
    | .ok joined => .ok (.comboDriver joined)
    | .error e => .error e
  | none =>
    .ok (.identityController flex_name 0 1
      ("return obj_data.flex_controllers[\"" ++ flex_name ++ "\"].value"))

end SourceIO

namespace SourceIO

/-- C1 (counterexample): the claim says every tint other than pure white gets
a multiply-blend node.  The tint `(0,1,0,1)` is not pure white, yet
`create_nodes` inserts no mix node, because the source condition requires all
three of R,G,B to differ from 1.0 and here G equals 1.0. -/
theorem C1_counterexample :
    (Vec4.mk 0 1 0 1 ≠ pureWhite) ∧
      (create_nodes ⟨⟨0, 1, 0, 1⟩, 0, 0, 0⟩).mixColor2 = none ∧
      (create_nodes ⟨⟨0, 1, 0, 1⟩, 0, 0, 0⟩).baseColor = .albedoDirect := by
  decide

/-- C1 (amended): a multiply-blend node is inserted exactly when all three of
the tint's R, G and B channels differ from 1.0 (so never for pure white, for
which the albedo is connected directly to base color); when it is inserted,
its second input is the tint, scaled by 1/255 when the sum of the tint's four
channels exceeds 3. -/
theorem create_nodes_tint_mix (p : VRGenericParams) :
    ((create_nodes p).baseColor = .mixNode ↔
      (p.g_vColorTint.x ≠ 1 ∧ p.g_vColorTint.y ≠ 1 ∧ p.g_vColorTint.z ≠ 1)) ∧
    ((create_nodes p).baseColor = .mixNode →
      (create_nodes p).mixColor2 =
        some (if vecSum p.g_vColorTint > 3 then
                ⟨p.g_vColorTint.x / 255, p.g_vColorTint.y / 255,
                 p.g_vColorTint.z / 255, p.g_vColorTint.w / 255⟩
              else p.g_vColorTint)) ∧
    ((create_nodes p).baseColor = .albedoDirect →
      (create_nodes p).mixColor2 = none) ∧
    (p.g_vColorTint = pureWhite →
      (create_nodes p).baseColor = .albedoDirect ∧
      (create_nodes p).mixColor2 = none) := by
  obtain ⟨⟨cx, cy, cz, cw⟩, a, m, t⟩ := p
  simp only [create_nodes, scaledTint, vecSum, pureWhite]
  by_cases hx : cx = 1 <;> by_cases hy : cy = 1 <;> by_cases hz : cz = 1 <;>
    simp [hx, hy, hz]

/-- C1 (witness): instantiates `create_nodes_tint_mix` at the tint
`(2,2,2,2)`, whose channel sum 8 exceeds 3, so the mix node is inserted with
the tint divided by 255. -/
theorem create_nodes_tint_mix_witness :
    (create_nodes ⟨⟨2, 2, 2, 2⟩, 0, 0, 0⟩).mixColor2 =
      some ⟨2 / 255, 2 / 255, 2 / 255, 2 / 255⟩ := by
  have h := (create_nodes_tint_mix ⟨⟨2, 2, 2, 2⟩, 0, 0, 0⟩).2.1
    ((create_nodes_tint_mix ⟨⟨2, 2, 2, 2⟩, 0, 0, 0⟩).1.mpr (by norm_num))
  rw [h]
  norm_num [vecSum]

/-- C8 (counterexample): the claim says the host material's blend mode is
mutated exactly when translucency is present; but with `F_TRANSLUCENT = 0`
and `F_ALPHA_TEST = 1` the code still sets `blend_method = HASHED`. -/
theorem C8_counterexample :
    (create_nodes ⟨pureWhite, 1, 0, 0⟩).blendMethodSet = true ∧
      (VRGenericParams.mk pureWhite 1 0 0).F_TRANSLUCENT = 0 := by
  decide

/-- C8 (amended): albedo alpha is wired to the shader's `Alpha` input exactly
when the translucent or alpha-test flag is set, and to `Metallic` exactly
when the metalness flag is set and neither translucent nor alpha-test is;
the host material's blend mode is mutated exactly when translucent or
alpha-test is set (not only for translucency). -/
theorem create_nodes_alpha_wiring (p : VRGenericParams) :
    ((create_nodes p).alphaWiring = .toAlpha ↔
      (p.F_TRANSLUCENT ≠ 0 ∨ p.F_ALPHA_TEST ≠ 0)) ∧
    ((create_nodes p).alphaWiring = .toMetallic ↔
      (p.F_METALNESS_TEXTURE ≠ 0 ∧ p.F_TRANSLUCENT = 0 ∧ p.F_ALPHA_TEST = 0)) ∧
    ((create_nodes p).blendMethodSet = true ↔
      (p.F_TRANSLUCENT ≠ 0 ∨ p.F_ALPHA_TEST ≠ 0)) := by
  obtain ⟨c, a, m, t⟩ := p
  simp only [create_nodes]
  by_cases ht : t = 0 <;> by_cases ha : a = 0 <;> by_cases hm : m = 0 <;>
    simp [ht, ha, hm]

/-- C8 (witness): instantiates `create_nodes_alpha_wiring` with only the
metalness flag set: alpha goes to `Metallic` and the blend mode is left
alone. -/
theorem create_nodes_alpha_wiring_witness :
    (create_nodes ⟨pureWhite, 0, 1, 0⟩).alphaWiring = .toMetallic :=
  (create_nodes_alpha_wiring ⟨pureWhite, 0, 1, 0⟩).2.1.mpr (by decide)

/-- C2 (counterexample): the claim says the ramp's slope is determined by the
extent of the model's X coordinates.  The two vertex lists below have
identical X coordinates (0 and 1), yet the blend weight of the same vertex
X coordinate 1/500 differs, because `model_vertices.max()` /
`model_vertices.min()` reduce over all three coordinates and the second list
has a Y coordinate of 10. -/
theorem C2_counterexample :
    ([⟨0, 0, 0⟩, ⟨1, 0, 0⟩] : List Vec3).map Vec3.x =
      ([⟨0, 0, 0⟩, ⟨1, 10, 0⟩] : List Vec3).map Vec3.x ∧
    balance [⟨0, 0, 0⟩, ⟨1, 0, 0⟩] (1 / 500) ≠
      balance [⟨0, 0, 0⟩, ⟨1, 10, 0⟩] (1 / 500) := by
  constructor
  · rfl
  · norm_num [balance, npClip, balance_width, npMax, npMin, allCoords,
      vec3Coords]

/-- C2 (amended): the per-vertex blend weight is a clipped linear ramp: it
equals a linear function of the vertex's X coordinate clipped to [0,1], and
its slope is determined by the extent of ALL the model's local coordinates
(the difference between the global maximum and global minimum over every
component of every vertex), not by the X coordinates alone. -/
theorem balance_clipped_linear_ramp (vs : List Vec3) (x : ℚ) :
    balance vs x = npClip (-(1 / (2 * balance_width vs)) * x + 1 / 2) 0 1 ∧
    0 ≤ balance vs x ∧ balance vs x ≤ 1 ∧
    (∀ vs' : List Vec3, npMax (allCoords vs') = npMax (allCoords vs) →
      npMin (allCoords vs') = npMin (allCoords vs) →
      balance vs' x = balance vs x) := by
  refine ⟨?_, ?_, ?_, ?_⟩
  · unfold balance
    congr 1
    ring
  · exact le_min (le_max_right _ _) zero_le_one
  · exact min_le_right _ _
  · intro vs' hmax hmin
    unfold balance balance_width
    rw [hmax, hmin]

/-- C2 (witness): instantiates `balance_clipped_linear_ramp` on a concrete
two-vertex model at X coordinate 0, where the weight evaluates to 1/2. -/
theorem balance_clipped_linear_ramp_witness :
    balance [⟨0, 0, 0⟩, ⟨1, 0, 0⟩] 0 =
      npClip (-(1 / (2 * balance_width [⟨0, 0, 0⟩, ⟨1, 0, 0⟩])) * 0 + 1 / 2)
        0 1 ∧
    balance [⟨0, 0, 0⟩, ⟨1, 10, 0⟩] 0 = balance [⟨0, 0, 0⟩, ⟨1, 10, 0⟩] 0 :=
  ⟨(balance_clipped_linear_ramp [⟨0, 0, 0⟩, ⟨1, 0, 0⟩] 0).1,
   (balance_clipped_linear_ramp [⟨0, 0, 0⟩, ⟨1, 10, 0⟩] 0).2.2.2 _ rfl rfl⟩

/-- C3 (confirmed): at every vertex the primary weight `balance` and the
partner weight `p_balance = 1 - balance` sum to exactly 1 (and each lies in
[0,1]); consequently the two weighted flex deltas recompose the full delta
on every coordinate. -/
theorem flex_pair_weights_sum_to_one (vs : List Vec3) (x : ℚ) :
    balance vs x + p_balance vs x = 1 ∧
    0 ≤ balance vs x ∧ balance vs x ≤ 1 ∧
    0 ≤ p_balance vs x ∧ p_balance vs x ≤ 1 ∧
    ∀ delta mv : Vec3,
      ((flexVertex delta mv (balance vs x)).x - mv.x) +
        ((flexVertex delta mv (p_balance vs x)).x - mv.x) = delta.x := by
  have hb0 : 0 ≤ balance vs x := le_min (le_max_right _ _) zero_le_one
  have hb1 : balance vs x ≤ 1 := min_le_right _ _
  refine ⟨by unfold p_balance; ring, hb0, hb1, ?_, ?_, ?_⟩
  · unfold p_balance; linarith
  · unfold p_balance; linarith
  · intro delta mv
    unfold flexVertex p_balance
    ring

/-- C3 (witness): instantiates `flex_pair_weights_sum_to_one` on a concrete
model and vertex. -/
theorem flex_pair_weights_sum_to_one_witness :
    balance [⟨0, 0, 0⟩, ⟨1, 0, 0⟩] (1 / 500) +
      p_balance [⟨0, 0, 0⟩, ⟨1, 0, 0⟩] (1 / 500) = 1 :=
  (flex_pair_weights_sum_to_one [⟨0, 0, 0⟩, ⟨1, 0, 0⟩] (1 / 500)).1

/-- `s[-n:]` has at most `n` characters. -/
theorem pySliceLast_length_le (n : Nat) (s : String) :
    (pySliceLast n s).length ≤ n := by
  show (s.data.drop (s.data.length - n)).length ≤ n
  rw [List.length_drop]
  omega

/-- `s[-n:]` is all of `s` when `s` has at most `n` characters. -/
theorem pySliceLast_of_le {n : Nat} {s : String} (h : s.length ≤ n) :
    pySliceLast n s = s := by
  unfold pySliceLast
  have hd : s.data.length - n = 0 := by
    have hs : s.length = s.data.length := rfl
    omega
  rw [hd, List.drop_zero]

/-- C9 (confirmed): names stored on host objects are truncated to at most 63
characters: bone names (`bone.name[-63:]`) and material names
(`mat_name[-63:]`); with unique material names requested the name is first
prefixed with the asset's base name (`f"{stem}_{mat_name[-63:]}"`) and the
result re-truncated to the 63-character limit, so that short enough prefixed
names are kept whole. -/
theorem host_name_truncation (stem name : String) (b : SrcBone) :
    (boneStoredName b).length ≤ 63 ∧
    (matName false stem name).length ≤ 63 ∧
    (matName true stem name).length ≤ 63 ∧
    matName true stem name =
      pySliceLast 63 (stem ++ "_" ++ pySliceLast 63 name) ∧
    ((stem ++ "_" ++ name).length ≤ 63 →
      matName true stem name = stem ++ "_" ++ name) := by
  refine ⟨pySliceLast_length_le _ _, pySliceLast_length_le _ _,
    pySliceLast_length_le _ _, rfl, ?_⟩
  intro h
  have h1 : (stem ++ "_" ++ name).length =
      stem.length + "_".length + name.length := by
    rw [String.length_append, String.length_append]
  have hname : name.length ≤ 63 := by omega
  show pySliceLast 63 (stem ++ "_" ++ pySliceLast 63 name) = _
  rw [pySliceLast_of_le hname, pySliceLast_of_le h]

/-- C9 (witness): instantiates `host_name_truncation` on a short name, kept
whole after prefixing. -/
theorem host_name_truncation_witness :
    matName true "model" "mat" = "model" ++ "_" ++ "mat" :=
  (host_name_truncation "model" "mat" ⟨"bip01", -1⟩).2.2.2.2 (by decide)

/-- C7 (confirmed): a material whose derived name already exists among the
host's materials with the `source1_loaded` flag set is skipped with the
informational log message, and the skip performs no host mutation, so
re-invoking import on already-loaded materials is a no-op. -/
theorem import_materials_skip_loaded (host : List (String × Bool))
    (mat_name : String) (material_path : Option String)
    (h : lookupHostMaterial host mat_name = some true) :
    importOneMaterial host mat_name material_path =
      .skipAlreadyLoaded
        ("Skipping loading of " ++ mat_name ++ " as it already loaded") ∧
    actionMutations (importOneMaterial host mat_name material_path) = [] := by
  unfold importOneMaterial
  rw [h]
  exact ⟨rfl, rfl⟩

/-- C7 (witness): instantiates `import_materials_skip_loaded` on a host that
already holds a loaded material `wood`. -/
theorem import_materials_skip_loaded_witness :
    importOneMaterial [("wood", true)] "wood" (some "materials/wood.vmt") =
      .skipAlreadyLoaded
        ("Skipping loading of " ++ "wood" ++ " as it already loaded") ∧
    actionMutations
      (importOneMaterial [("wood", true)] "wood"
        (some "materials/wood.vmt")) = [] :=
  import_materials_skip_loaded [("wood", true)] "wood"
    (some "materials/wood.vmt") (by decide)

/-- One input's definition is emitted exactly when its tag is supported. -/
theorem inputDefinition_isOk (inp : String × String) :
    (inputDefinition inp).isOk = true ↔ supportedFetchKind inp.2 = true := by
  unfold inputDefinition supportedFetchKind
  cases h1 : controllerTags.contains inp.2 <;>
    cases h2 : inp.2 == "fetch2" <;>
      simp [h1, h2, Except.isOk, Except.toBool]

/-- The input loop succeeds on a cons exactly when the head's definition and
the tail both succeed. -/
theorem inputDefinitions_isOk_cons (inp : String × String)
    (rest : List (String × String)) :
    (inputDefinitions (inp :: rest)).isOk =
      ((inputDefinition inp).isOk && (inputDefinitions rest).isOk) := by
  cases h1 : inputDefinition inp <;> cases h2 : inputDefinitions rest <;>
    simp [inputDefinitions, h1, h2, Except.isOk, Except.toBool]

/-- An `Except` is an error exactly when it is not ok. -/
theorem except_error_iff {α : Type} (x : Except String α) :
    (∃ e, x = .error e) ↔ x.isOk = false := by
  cases x <;> simp [Except.isOk, Except.toBool]

/-- C5 (confirmed): driver-script generation emits a definition for every
expression input exactly when every input's fetch-kind tag is supported
(`fetch1`/`2WAY1`/`2WAY0`/`NWAY`/`DUE` — single-controller and stereo-half
controller fetches, n-way — or `fetch2`, the shape-key fetch); it raises the
fatal `NotImplementedError` exactly when some input carries any other
tag. -/
theorem driver_input_fetch_kinds (inputs : List (String × String)) :
    ((inputDefinitions inputs).isOk = true ↔
      ∀ inp ∈ inputs, supportedFetchKind inp.2 = true) ∧
    ((∃ e, inputDefinitions inputs = .error e) ↔
      ∃ inp ∈ inputs, supportedFetchKind inp.2 = false) := by
  have main : (inputDefinitions inputs).isOk = true ↔
      ∀ inp ∈ inputs, supportedFetchKind inp.2 = true := by
    induction inputs with
    | nil => simp [inputDefinitions, Except.isOk, Except.toBool]
    | cons inp rest ih =>
      rw [inputDefinitions_isOk_cons, Bool.and_eq_true, ih,
        inputDefinition_isOk, List.forall_mem_cons]
  refine ⟨main, ?_⟩
  rw [except_error_iff]
  constructor
  · intro hoff
    by_contra hnone
    push_neg at hnone
    have hall : ∀ inp ∈ inputs, supportedFetchKind inp.2 = true := by
      intro inp hinp
      have := hnone inp hinp
      revert this
      cases supportedFetchKind inp.2 <;> simp
    rw [main.mpr hall] at hoff
    cases hoff
  · intro ⟨inp, hinp, hbad⟩
    cases hok : (inputDefinitions inputs).isOk
    · rfl
    · have := main.mp hok inp hinp
      rw [hbad] at this
      cases this

/-- C5 (witness): instantiates `driver_input_fetch_kinds` on a two-input
list with supported tags (a stereo-left controller fetch and a shape-key
fetch), where generation succeeds. -/
theorem driver_input_fetch_kinds_witness :
    (inputDefinitions [("left_eye", "fetch1"), ("smile", "fetch2")]).isOk =
      true :=
  (driver_input_fetch_kinds [("left_eye", "fetch1"), ("smile", "fetch2")]).1.mpr
    (by decide)

/-- C6 (code bug, evaluated at the failing input): for the shape key `jaw`
lacking a compiled rule while a flex controller `jaw` exists,
`_parse_simple_flex` succeeds with exactly the single-controller passthrough
the spec describes; but emitting the fallback driver fails: line 412 joins
the raw `(name, 'fetch2')` input tuples with `st.join`, which raises
`TypeError` because the sequence items are tuples, not strings.  Only the
second fallback (here: no controller named `jaw`, controller list empty)
reaches the host: it registers a 0–1 range controller and an identity driver
returning its value. -/
theorem missing_rule_fallback_type_error :
    parse_simple_flex ["jaw"] "jaw" =
      some (.combo [.fetchController "jaw"], [("jaw", "fetch2")]) ∧
    missingRuleFallback ["jaw"] "jaw" =
      .error "TypeError: sequence item: expected str instance, tuple found" ∧
    missingRuleFallback [] "jaw" =
      .ok (.identityController "jaw" 0 1
        ("return obj_data.flex_controllers[\"" ++ "jaw" ++ "\"].value")) :=
  ⟨rfl, rfl, rfl⟩

/-- Every weight-group addition of a sub-model has strictly positive weight,
targets the vertex it is recorded for, and names the bone of one of that
vertex's influence pairs. -/
theorem mem_weightAssignments {bones : List SrcBone}
    {vertices : List SrcVertex} {e : String × Nat × ℚ}
    (he : e ∈ weightAssignments bones vertices) :
    0 < e.2.2 ∧ ∃ v, vertices[e.2.1]? = some v ∧
      ∃ bw ∈ v.bone_id.zip v.weight,
        bw.2 = e.2.2 ∧ (bones.getD bw.1 default).name = e.1 := by
  unfold weightAssignments at he
  rw [List.mem_flatten] at he
  obtain ⟨l, hl, hel⟩ := he
  rw [List.mem_map] at hl
  obtain ⟨nv, hnv, rfl⟩ := hl
  rw [List.mem_enum_iff_getElem?] at hnv
  unfold vertexWeightEntries at hel
  rw [List.mem_filterMap] at hel
  obtain ⟨bw, hbw, hfbw⟩ := hel
  by_cases hpos : 0 < bw.2
  · rw [if_pos hpos] at hfbw
    obtain rfl := Option.some.inj hfbw
    exact ⟨hpos, nv.2, hnv, bw, hbw, rfl, rfl⟩
  · rw [if_neg hpos] at hfbw
    cases hfbw

/-- Indexing into a numpy gather. -/
theorem npGather_getElem? {α : Type} [Inhabited α] (data : List α)
    (idx : List Nat) (j i : Nat) (hj : idx[j]? = some i) :
    (npGather data idx)[j]? = some (data.getD i default) := by
  unfold npGather
  rw [List.getElem?_map, hj]
  rfl

/-- Indexing into a V-flipped UV array. -/
theorem flipV_getD {l : List (ℚ × ℚ)} {i : Nat} (hi : i < l.length) :
    (flipV l).getD i default =
      ((l.getD i default).1, 1 - (l.getD i default).2) := by
  unfold flipV
  rw [List.getD_eq_getElem?_getD, List.getElem?_map,
    List.getElem?_eq_getElem hi, List.getD_eq_getElem?_getD,
    List.getElem?_eq_getElem hi]
  rfl

/-- Indexing into the per-vertex UV projection. -/
theorem uv_map_getD {vertices : List SrcVertex} {i : Nat}
    (hi : i < vertices.length) :
    (vertices.map SrcVertex.uv).getD i default =
      (vertices.getD i default).uv := by
  rw [List.getD_eq_getElem?_getD, List.getElem?_map,
    List.getElem?_eq_getElem hi, List.getD_eq_getElem?_getD,
    List.getElem?_eq_getElem hi]
  rfl

/-- C10 (confirmed): for every mesh loop `j` referring to gathered vertex
`i`, the stored UV of the primary layer keeps the source U and stores
`1 - V` (vertical flip), and likewise for every extra UV layer derived from
the vertex buffer's extra data. -/
theorem uv_vertical_flip (vertices : List SrcVertex) (extra : List (ℚ × ℚ))
    (vertex_offset vertex_count : Nat)
    (vtx_vertices vertex_indices : List Nat) (j i : Nat)
    (hj : vertex_indices[j]? = some i) :
    (i < vertices.length →
      (primaryUVLayer vertices vertex_indices)[j]? =
        some ((vertices.getD i default).uv.1,
          1 - (vertices.getD i default).uv.2)) ∧
    (i < (npGather (get_slice extra vertex_offset vertex_count)
        vtx_vertices).length →
      (extraUVLayer extra vertex_offset vertex_count vtx_vertices
          vertex_indices)[j]? =
        some (((npGather (get_slice extra vertex_offset vertex_count)
            vtx_vertices).getD i default).1,
          1 - ((npGather (get_slice extra vertex_offset vertex_count)
            vtx_vertices).getD i default).2)) := by
  constructor
  · intro hi
    unfold primaryUVLayer
    rw [npGather_getElem? _ _ _ _ hj,
      flipV_getD (by rw [List.length_map]; exact hi), uv_map_getD hi]
  · intro hi
    unfold extraUVLayer
    rw [npGather_getElem? _ _ _ _ hj, flipV_getD hi]

/-- C10 (witness): instantiates `uv_vertical_flip` on a one-vertex mesh with
UV `(1/4, 3/4)`, whose stored V is `1 - 3/4`. -/
theorem uv_vertical_flip_witness :
    (primaryUVLayer [⟨default, default, (1 / 4, 3 / 4), [], []⟩] [0])[0]? =
      some ((([⟨default, default, (1 / 4, 3 / 4), [], []⟩] :
          List SrcVertex).getD 0 default).uv.1,
        1 - (([⟨default, default, (1 / 4, 3 / 4), [], []⟩] :
          List SrcVertex).getD 0 default).uv.2) :=
  (uv_vertical_flip [⟨default, default, (1 / 4, 3 / 4), [], []⟩] [] 0 0 []
    [0] 0 0 rfl).1 (by decide)

/-- C4 (confirmed): importing a model whose header has the static-prop flag
set creates no armature, no armature modifiers, no vertex groups and no
weight additions; without the flag an armature is created, every nonempty
sub-model gets exactly one vertex group per bone of the skeleton (in order),
and every weight addition carries a strictly positive weight that is one of
the target vertex's influences on the named bone. -/
theorem static_prop_import_behaviour (header : MdlHeader)
    (bones : List SrcBone) (allVertices : List SrcVertex)
    (extraData : List (List (ℚ × ℚ))) (models : List SubModelInput) :
    (static_prop header = true →
      (import_model header bones allVertices extraData
          models).armatureCreated = false ∧
      ∀ mesh ∈ (import_model header bones allVertices extraData
          models).meshes,
        mesh.armatureModifier = false ∧ mesh.vertexGroups = [] ∧
          mesh.weights = []) ∧
    (static_prop header = false →
      (import_model header bones allVertices extraData
          models).armatureCreated = true ∧
      (import_model header bones allVertices extraData models).meshes =
        (models.filter fun m => m.vertex_count != 0).map
          (processModel false bones allVertices extraData) ∧
      ∀ m : SubModelInput,
        (processModel false bones allVertices extraData m).vertexGroups =
          bones.map SrcBone.name ∧
        (processModel false bones allVertices extraData m).armatureModifier
            = true ∧
        ∀ e ∈ (processModel false bones allVertices extraData m).weights,
          0 < e.2.2 ∧
          ∃ v, (npGather (get_slice allVertices m.vertex_offset
              m.vertex_count) m.vtx_vertices)[e.2.1]? = some v ∧
            ∃ bw ∈ v.bone_id.zip v.weight,
              bw.2 = e.2.2 ∧ (bones.getD bw.1 default).name = e.1) := by
  constructor
  · intro h
    refine ⟨by simp [import_model, h], ?_⟩
    intro mesh hmesh
    simp only [import_model, h, List.mem_map] at hmesh
    obtain ⟨m, hm, rfl⟩ := hmesh
    exact ⟨rfl, rfl, rfl⟩
  · intro h
    refine ⟨by simp [import_model, h], by simp [import_model, h], ?_⟩
    intro m
    refine ⟨rfl, rfl, ?_⟩
    intro e he
    exact mem_weightAssignments he

/-- C4 (witness): instantiates `static_prop_import_behaviour` at a header
with the static-prop bit set (flags 16: no armature) and one without
(flags 0: armature created). -/
theorem static_prop_import_behaviour_witness :
    (import_model ⟨16, "crate.mdl"⟩ [] [] [] []).armatureCreated = false ∧
    (import_model ⟨0, "char.mdl"⟩ [⟨"root", -1⟩] [] [] []).armatureCreated
        = true :=
  ⟨((static_prop_import_behaviour ⟨16, "crate.mdl"⟩ [] [] [] []).1
      (by decide)).1,
   ((static_prop_import_behaviour ⟨0, "char.mdl"⟩ [⟨"root", -1⟩] [] [] []).2
      (by decide)).1⟩

end SourceIO
